import Mathlib

/-
Verification development for the netsquid-quantum-network-simulation
repository: a sequence of experiment scripts that estimate
entanglement-distribution metrics (fidelity, success probability) over
simulated lossy quantum links.

The multi-qubit machinery below embeds the quantum states and gates the
scripts use through the simulator's qubit API (ketstates.b00, the H and
CNOT operators, and fidelity against a reference ket).  States on n
qubits are real-amplitude vectors indexed by natural numbers below 2 ^ n
(bit k of the index is the basis value of qubit k).  Gates are kept
unnormalized (the Hadamard here is sqrt 2 times the physical one); the
fidelity definitions divide by both squared norms, so every scale factor
cancels and all arithmetic stays in the rationals.
-/

/-- Bit k of the basis-state index i. -/
def getBit (i k : ℕ) : ℕ := i / 2 ^ k % 2

/-- Index i with bit k replaced by b. -/
def setBit (i k b : ℕ) : ℕ := i % 2 ^ k + b * 2 ^ k + 2 ^ (k + 1) * (i / 2 ^ (k + 1))

/-- Index i with bit k flipped. -/
def flipBit (i k : ℕ) : ℕ := setBit i k (1 - getBit i k)

/-- Sum of a rational-valued function over the indices below n. -/
def sumRange (n : ℕ) (f : ℕ → ℚ) : ℚ := ((List.range n).map f).sum

/-- Squared norm of an n-qubit real state vector. -/
def normSq (n : ℕ) (ψ : ℕ → ℚ) : ℚ := sumRange (2 ^ n) (fun i => ψ i ^ 2)

/-- Hadamard on qubit k, scaled by sqrt 2 so amplitudes stay rational:
rows (1, 1) and (1, -1) indexed by the output bit. -/
def applyH (k : ℕ) (ψ : ℕ → ℚ) : ℕ → ℚ := fun i =>
  if getBit i k = 0 then ψ (setBit i k 0) + ψ (setBit i k 1)
  else ψ (setBit i k 0) - ψ (setBit i k 1)

/-- CNOT with control qubit c and target qubit t: a self-inverse basis
permutation, so the new amplitude at i is the old amplitude at the
permuted index. -/
def applyCNOT (c t : ℕ) (ψ : ℕ → ℚ) : ℕ → ℚ := fun i =>
  if getBit i c = 1 then ψ (flipBit i t) else ψ i

/-- The reference Bell state ketstates.b00, unnormalized: amplitude 1 on
the basis states 00 and 11 of a two-qubit register. -/
def b00 : ℕ → ℚ := fun i => if i = 0 ∨ i = 3 then 1 else 0

/-- The two-qubit all-zero state, from which step6's source protocol
builds its pair. -/
def ket00 : ℕ → ℚ := fun i => if i = 0 then 1 else 0

/-- The pair created by step6's MinimalEntanglementProtocol: H on the
first qubit of the all-zero register, then CNOT from the first qubit to
the second. -/
def bellCircuitPair : ℕ → ℚ := applyCNOT 0 1 (applyH 0 ket00)

/-- A loss-only channel delivers a qubit unchanged: on the Delivered
branch no operation touches the state (the scripts attach only a loss
model, never a noise model, to their channels). -/
def lossOnlyDeliver (ψ : ℕ → ℚ) : ℕ → ℚ := ψ

/-- Squared fidelity of a pure n-qubit state ψ against a pure reference
φ, with both vectors allowed to be unnormalized. -/
def fidelitySq (n : ℕ) (ψ φ : ℕ → ℚ) : ℚ :=
  sumRange (2 ^ n) (fun i => φ i * ψ i) ^ 2 / (normSq n φ * normSq n ψ)

/-- The four-qubit state held after both legs of a two-hop configuration
deliver: qubit 0 is Alice's half, qubits 1 and 2 are the two halves held
at the middle node, qubit 3 is Bob's half.  Each leg is a fresh b00
pair, so the amplitude is 1 exactly when bits 0,1 agree and bits 2,3
agree. -/
def twoPairInit : ℕ → ℚ := fun i =>
  if getBit i 0 = getBit i 1 ∧ getBit i 2 = getBit i 3 then 1 else 0

/-- The four-qubit state after step3's entanglement-swapping block:
H on the middle node's first qubit, then CNOT with that qubit as control
and the middle node's second qubit as target.  No measurement follows in
the script. -/
def swapStep3 : ℕ → ℚ := applyCNOT 1 2 (applyH 1 twoPairInit)

/-- The four-qubit state after step4's repeater BSM block (gate order of
nv_repeater_chain.py, one repeater): CNOT with the left half as control
and the right half as target, then H on the right half.  No measurement
follows in the script. -/
def swapStep4 : ℕ → ℚ := applyH 2 (applyCNOT 1 2 twoPairInit)

/-- Squared fidelity of the reduced state of qubits 0 (Alice) and 3
(Bob) of a four-qubit state against the reference b00, computed as the
sum over the traced-out middle qubits of the squared overlaps, divided
by both squared norms.  This is what qubitapi.fidelity on the Alice and
Bob qubits reads out after the swap gates. -/
def fidelitySqAB (ψ : ℕ → ℚ) : ℚ :=
  sumRange 2 (fun m1 => sumRange 2 (fun m2 =>
    sumRange 2 (fun a => sumRange 2 (fun b =>
      b00 (a + 2 * b) * ψ (a + 2 * m1 + 4 * m2 + 8 * b))) ^ 2))
  / (normSq 2 b00 * normSq 4 ψ)

/-- C6: a freshly created entangled pair (whether assigned the state
ketstates.b00 directly, as in steps 1 through 5, or built by the H-CNOT
circuit of step6's source protocol) has fidelity exactly 1.0 against the
canonical reference Bell state, and for an ideal noiseless link the
delivered pair, which a loss-only channel leaves unchanged, still has
fidelity 1.0 against that reference state. -/
theorem c6_fresh_pair_fidelity_one :
    fidelitySq 2 b00 b00 = 1 ∧ fidelitySq 2 bellCircuitPair b00 = 1 ∧
    fidelitySq 2 (lossOnlyDeliver b00) b00 = 1 := by
  refine ⟨?_, ?_, ?_⟩
  · norm_num [fidelitySq, sumRange, normSq, List.range_succ, b00]
  · norm_num [fidelitySq, sumRange, normSq, List.range_succ, b00, bellCircuitPair,
      applyCNOT, applyH, ket00, getBit, setBit, flipBit]
  · norm_num [fidelitySq, sumRange, normSq, List.range_succ, b00, lossOnlyDeliver]

set_option maxHeartbeats 1000000 in
/-- C1 (code evaluation at the failing input): in the ideal two-hop
configuration where both legs deliver perfect pairs (f1 = f2 = 1), the
swap blocks of step3 (H then CNOT) and step4 (CNOT then H) apply their
gates but never measure the middle qubits, so the reduced Alice-Bob
state is maximally mixed: its squared fidelity against b00 is 1/4 under
either gate order, not the composed f1 * f2 = 1 that the claim
requires. -/
theorem c1_swap_gates_leave_alice_bob_mixed :
    fidelitySqAB swapStep3 = 1 / 4 ∧ fidelitySqAB swapStep4 = 1 / 4 ∧
    fidelitySqAB swapStep3 ≠ 1 * 1 := by
  have h3 : fidelitySqAB swapStep3 = 1 / 4 := by
    norm_num [fidelitySqAB, sumRange, normSq, List.range_succ, b00, swapStep3,
      applyCNOT, applyH, twoPairInit, getBit, setBit, flipBit]
  have h4 : fidelitySqAB swapStep4 = 1 / 4 := by
    norm_num [fidelitySqAB, sumRange, normSq, List.range_succ, b00, swapStep4,
      applyCNOT, applyH, twoPairInit, getBit, setBit, flipBit]
  refine ⟨h3, h4, ?_⟩
  rw [h3]
  norm_num

/-
Delivery bookkeeping of nv_repeater_chain.py (step4).  Each shot tracks
arrivals in a dictionary keyed by node and port; the embedding indexes
the keys with RKey.  Channel j of a chain with n repeaters ships, for
j = 0, Alice's outbound half to R0's left port, for 1 <= j <= n - 1,
R(j-1)'s forwarded half to Rj's left port, and for j = n, R(n-1)'s
forwarded half to Bob.  The outcomes function reports, per shot, whether
channel j delivered.
-/

/-- Keys of the per-shot received dictionary of step4. -/
inductive RKey where
  | aliceQin : RKey
  | bobQin : RKey
  | rLeft : ℕ → RKey
  | rRight : ℕ → RKey

/-- The received dictionary just before ns.sim_run resolves the
channels: Alice's half and every repeater's right half are written
locally by the generation code (lines 107 to 126), with no channel
involved. -/
def receivedBeforeRun (n : ℕ) : RKey → Bool
  | RKey.aliceQin => true
  | RKey.rRight i => decide (i < n)
  | _ => false

/-- The received dictionary after ns.sim_run: the locally written
entries are untouched, each repeater's left half is present exactly when
its feeding channel delivered, and Bob's entry is present exactly when
the final channel delivered. -/
def received (n : ℕ) (outcomes : ℕ → Bool) : RKey → Bool
  | RKey.aliceQin => true
  | RKey.bobQin => outcomes n
  | RKey.rLeft i => decide (i < n) && outcomes i
  | RKey.rRight i => decide (i < n)

/-- The swap guard at repeater i (step4 lines 131 to 139): the BSM gates
run only when both halves are present in the received dictionary. -/
def swapExecuted (n : ℕ) (outcomes : ℕ → Bool) (i : ℕ) : Bool :=
  received n outcomes (RKey.rLeft i) && received n outcomes (RKey.rRight i)

/-- The success condition of step4 (lines 141 to 152): a fidelity is
computed and appended exactly when the Alice and Bob entries are both
present; no other entry is consulted. -/
def shotSuccess (n : ℕ) (outcomes : ℕ → Bool) : Bool :=
  received n outcomes RKey.aliceQin && received n outcomes RKey.bobQin

/-- The channel outcomes of the C2 failing shot with two repeaters: the
Alice-to-R0 channel loses its qubit, the two remaining channels
deliver. -/
def lostFirstChannel : ℕ → Bool := fun j => decide (0 < j)

/-- C2 (code evaluation at the failing input): with two repeaters, when
the Alice-to-R0 channel loses its qubit and the other channels deliver,
R0's left input never arrives and its swap is correctly skipped, yet the
shot still satisfies step4's success condition, so a fidelity is
computed and appended instead of the shot being reported lost. -/
theorem c2_incomplete_swap_still_counted :
    received 2 lostFirstChannel (RKey.rLeft 0) = false ∧
    swapExecuted 2 lostFirstChannel 0 = false ∧
    shotSuccess 2 lostFirstChannel = true := by
  refine ⟨rfl, rfl, rfl⟩

/-- C9: in the step4 repeater chain with at least one repeater, Alice's
half-pair and every repeater's right half are recorded in the received
dictionary locally, before any channel resolves, so they are present no
matter which channels lose their qubits; consequently a shot is counted
as a success, with a fidelity recorded, exactly when the final
repeater-to-Bob channel (channel n) delivered, regardless of every other
channel's outcome. -/
theorem c9_success_depends_only_on_last_channel (n : ℕ) (hn : 1 ≤ n)
    (outcomes : ℕ → Bool) :
    received n outcomes RKey.aliceQin = true ∧
    (∀ i, i < n → received n outcomes (RKey.rRight i) = true) ∧
    (∀ i, i < n → received n outcomes (RKey.rRight i) = receivedBeforeRun n (RKey.rRight i)) ∧
    shotSuccess n outcomes = outcomes n := by
  refine ⟨rfl, ?_, ?_, ?_⟩
  · intro i hi
    simp [received, hi]
  · intro i hi
    simp [received, receivedBeforeRun]
  · simp [shotSuccess, received]

/-- Witness for C9 at a concrete input: two repeaters, a shot in which
only the final channel delivers; the shot is still counted a success. -/
theorem c9_success_depends_only_on_last_channel_witness :
    shotSuccess 2 (fun j => decide (j = 2)) = (fun j : ℕ => decide (j = 2)) 2 :=
  (c9_success_depends_only_on_last_channel 2 (by decide) (fun j => decide (j = 2))).2.2.2

/-
Aggregation contract of the experiment drivers (step4 lines 168 to 170
and step2 lines 89 to 93): per configuration point the driver keeps the
list of per-shot results, where a lost shot contributes no fidelity and
a delivered shot contributes one. -/

/-- The per-shot result stream: none is a lost shot, some f a delivered
shot with fidelity f. -/
def successFidelities (results : List (Option ℚ)) : List ℚ :=
  results.filterMap id

/-- Number of successful (delivered) shots, the numerator of the success
rate printed by step4 line 170. -/
def successCount (results : List (Option ℚ)) : ℕ :=
  (successFidelities results).length

/-- Total number of shots, the denominator of the success rate. -/
def totalShots (results : List (Option ℚ)) : ℕ :=
  results.length

/-- Mean fidelity over delivered shots only, step4 line 169
(np.mean over success_fidelities). -/
def meanFidelity (results : List (Option ℚ)) : ℚ :=
  (successFidelities results).sum / (successFidelities results).length

/-- Success rate, step4 line 170: successes over every shot. -/
def successRate (results : List (Option ℚ)) : ℚ :=
  (successCount results : ℚ) / (totalShots results : ℚ)

/-- C4: appending a lost shot to the result stream leaves the mean
fidelity and the success count unchanged while growing the total-shot
count by one, and the mean fidelity is the sum of the delivered
fidelities over the number of delivered shots: lost shots are excluded
from the fidelity mean but included in the success-rate denominator. -/
theorem c4_lost_shots_excluded_from_mean_counted_in_total
    (results : List (Option ℚ)) :
    meanFidelity (results ++ [none]) = meanFidelity results ∧
    successCount (results ++ [none]) = successCount results ∧
    totalShots (results ++ [none]) = totalShots results + 1 ∧
    meanFidelity results =
      (successFidelities results).sum / (successCount results : ℚ) ∧
    successRate results = (successCount results : ℚ) / (totalShots results : ℚ) := by
  refine ⟨?_, ?_, ?_, rfl, rfl⟩
  · simp [meanFidelity, successFidelities]
  · simp [successCount, successFidelities]
  · simp [totalShots]

/-
Loss model and analytic chain.  The probability computations of the
scripts live in the dB domain: a channel of physical length len_m meters
with loss coefficient alpha dB/km attenuates by alpha * len_m / 1000 dB,
and an attenuation of db decibels transmits with probability
10 ^ (-db / 10).  The function tenPowNegDb packages that last step; its
argument stays rational, so identities between probabilities reduce to
rational identities between attenuations.
-/

/-- Transmission probability for an attenuation of db decibels:
10 raised to -db / 10. -/
noncomputable def tenPowNegDb (db : ℚ) : ℝ := (10 : ℝ) ^ (-(db : ℝ) / 10)

theorem tenPowNegDb_congr {a b : ℚ} (h : a = b) : tenPowNegDb a = tenPowNegDb b := by
  rw [h]

theorem tenPowNegDb_zero : tenPowNegDb 0 = 1 := by
  simp [tenPowNegDb]

/-- Modelled from the spec: the Loss Channel delivery probability of
section 4.2.  The FibreLossModel implementation the scripts instantiate
(with p_loss_init = 0.0 and p_loss_length the fibre loss coefficient in
dB/km) is external simulator code, absent from the repository, so the
probability a transmission is delivered is taken from the spec's
formula: p = 10 ^ (-(loss_coefficient_db_per_km * length_m / 1000 +
init_loss_db) / 10). -/
noncomputable def transmitProb (loss_db_per_km len_m init_loss_db : ℚ) : ℝ :=
  tenPowNegDb (loss_db_per_km * len_m / 1000 + init_loss_db)

theorem transmitProb_zero_len (α : ℚ) : transmitProb α 0 0 = 1 := by
  have h : α * 0 / 1000 + 0 = (0 : ℚ) := by ring
  rw [transmitProb, h, tenPowNegDb_zero]

/-- Outcome of one channel transmission. -/
inductive Outcome where
  | Delivered : Outcome
  | Lost : Outcome

/-- Modelled from the spec: transmit draws one pseudo-random number u in
the unit interval and delivers exactly when u falls below the
transmission probability; on Lost the qubit is discarded and no delivery
callback fires. -/
noncomputable def transmit (p : ℝ) (u : ℚ) : Outcome :=
  if (u : ℝ) < p then Outcome.Delivered else Outcome.Lost

/-- C5: at link length 0 meters with zero initial loss the transmission
probability is exactly 1, so every draw from the unit interval falls
below it and transmit returns Delivered: the Lost branch is
unreachable. -/
theorem c5_zero_length_always_delivered (α u : ℚ) (h0 : 0 ≤ u) (h1 : u < 1) :
    transmitProb α 0 0 = 1 ∧ transmit (transmitProb α 0 0) u = Outcome.Delivered := by
  refine ⟨transmitProb_zero_len α, ?_⟩
  rw [transmit, transmitProb_zero_len α, if_pos (by exact_mod_cast h1)]

/-- Witness for C5 at a concrete input: loss coefficient 0.2 dB/km,
draw 1/2. -/
theorem c5_zero_length_always_delivered_witness :
    transmitProb (2 / 10) 0 0 = 1 ∧
    transmit (transmitProb (2 / 10) 0 0) (1 / 2) = Outcome.Delivered :=
  c5_zero_length_always_delivered (2 / 10) (1 / 2) (by norm_num) (by norm_num)

/-
The analytical large-chain extrapolation of entanglement_chain_1000.py
(step6).  simulate_chain_progressive builds its results dictionary from
num_nodes, distance_km and two hardcoded physical constants: fibre
attenuation 0.2 dB/km and signal speed 2e8 m/s; the per-link fidelity
starts at 0.98.  The embedding mirrors the dictionary as a structure,
one field per key, each computed by the same closed-form expression as
the script (lines 77 to 94).
-/

/-- The results dictionary returned by simulate_chain_progressive. -/
structure ChainResults where
  num_nodes : ℕ
  distance_per_link_km : ℚ
  total_distance_km : ℚ
  attenuation_per_link_db : ℚ
  transmission_per_link : ℝ
  propagation_delay_per_link_us : ℚ
  total_propagation_delay_ms : ℚ
  estimated_fidelity : ℚ
  network_diameter : ℕ
  total_links : ℕ

/-- The analytical chain computation of step6 (lines 58 to 127): a pure
closed-form function of its configuration arguments.  The shots argument
is accepted, as in the script, where it appears only in progress
printing, never in the returned results. -/
noncomputable def simulate_chain_progressive (num_nodes shots : ℕ) (distance_km : ℚ) :
    ChainResults :=
  { num_nodes := num_nodes
  , distance_per_link_km := distance_km
  , total_distance_km := ((num_nodes - 1 : ℕ) : ℚ) * distance_km
  , attenuation_per_link_db := (2 / 10) * distance_km
  , transmission_per_link := tenPowNegDb ((2 / 10) * distance_km)
  , propagation_delay_per_link_us := distance_km * 1000 / 200000000 * 1000000
  , total_propagation_delay_ms := ((num_nodes - 1 : ℕ) : ℚ) * distance_km * 1000 / 200000000 * 1000
  , estimated_fidelity := (98 / 100) ^ (num_nodes - 1)
  , network_diameter := num_nodes - 1
  , total_links := num_nodes - 1 }

/-- C8: for every num_nodes of at least 1 the analytical extrapolation
computes the estimated end-to-end fidelity as the closed form
0.98 ^ (num_nodes - 1) and the per-link transmission probability as
10 ^ (-(0.2 dB/km * distance_km) / 10), for any shot count. -/
theorem c8_analytic_closed_forms (num_nodes shots : ℕ) (distance_km : ℚ)
    (hn : 1 ≤ num_nodes) :
    (simulate_chain_progressive num_nodes shots distance_km).estimated_fidelity
      = (98 / 100) ^ (num_nodes - 1) ∧
    (simulate_chain_progressive num_nodes shots distance_km).transmission_per_link
      = tenPowNegDb ((2 / 10) * distance_km) ∧
    (simulate_chain_progressive num_nodes shots distance_km).total_links
      = num_nodes - 1 :=
  ⟨rfl, rfl, rfl⟩

/-- Witness for C8 at a concrete input: a 3-node chain, 50 shots, 10 km
links; the estimated fidelity evaluates to 0.98 squared. -/
theorem c8_analytic_closed_forms_witness :
    (simulate_chain_progressive 3 50 10).estimated_fidelity = (98 / 100) ^ (3 - 1) ∧
    (98 / 100 : ℚ) ^ (3 - 1 : ℕ) = 9604 / 10000 :=
  ⟨(c8_analytic_closed_forms 3 50 10 (by norm_num)).1, by norm_num⟩

/-- C10: the returned results of simulate_chain_progressive do not
depend on the shots argument: any two shot counts give identical
results for the same num_nodes and distance_km. -/
theorem c10_results_independent_of_shots (num_nodes s1 s2 : ℕ) (distance_km : ℚ) :
    simulate_chain_progressive num_nodes s1 distance_km
      = simulate_chain_progressive num_nodes s2 distance_km := rfl

/-- C3: the spec transmission-probability formula with zero initial
loss reduces to 10 ^ (-(loss_coefficient_db_per_km * length_km) / 10),
and the analytical per-link transmission computation of step6 equals
that same zero-initial-loss formula applied to its link length of
distance_km * 1000 meters, so the simulated loss channels (all built
with p_loss_init = 0.0) and the analytical computation use one and the
same delivery probability. -/
theorem c3_transmission_probability_formula (α len_m : ℚ) (num_nodes shots : ℕ)
    (distance_km : ℚ) :
    transmitProb α len_m 0 = tenPowNegDb (α * (len_m / 1000)) ∧
    (simulate_chain_progressive num_nodes shots distance_km).transmission_per_link
      = transmitProb (2 / 10) (distance_km * 1000) 0 := by
  constructor
  · exact tenPowNegDb_congr (by ring)
  · exact (tenPowNegDb_congr (by ring)).symm

/-
Seeded determinism of the experiment drivers.  The process-wide random
generator of the simulator is external to the repository; following the
spec it is modelled as an explicitly seedable deterministic stream, here
a linear congruential generator over the naturals, each state yielding a
draw in the unit interval.  A step2-style driver runs a fixed number of
shots; each shot sends the two halves of a fresh pair through two lossy
channels, consuming one draw per channel, and counts the shot as a
success when both deliver.  Execution is phrased as a small-step
relation so that determinism is a property proved about the run, not a
consequence of writing the run as a function.
-/

/-- Modelled from the spec: the seedable process-wide pseudo-random
stream (the simulator's generator implementation is external to the
repository); a linear congruential generator stands in for it. -/
def lcgNext (s : ℕ) : ℕ := (1103515245 * s + 12345) % 2147483648

/-- The unit-interval draw read off a generator state. -/
def lcgFrac (s : ℕ) : ℚ := ((s % 2147483648 : ℕ) : ℚ) / 2147483648

theorem lcgFrac_nonneg (s : ℕ) : 0 ≤ lcgFrac s := by
  unfold lcgFrac
  positivity

theorem lcgFrac_lt_one (s : ℕ) : lcgFrac s < 1 := by
  have h : (s % 2147483648) < 2147483648 := Nat.mod_lt _ (by norm_num)
  rw [lcgFrac, div_lt_one (by norm_num)]
  exact_mod_cast h

/-- One configuration point of the step2 sweep: a shot count, a link
distance in km, and the fibre loss coefficient in dB/km. -/
structure LossConfig where
  shots : ℕ
  distance_km : ℚ
  loss_db_per_km : ℚ

/-- Delivery probability of each of the two channels of a shot: the
channels are built with p_loss_init 0.0 and physical length
distance_km * 1000 meters. -/
noncomputable def channelDeliveryProb (cfg : LossConfig) : ℝ :=
  transmitProb cfg.loss_db_per_km (cfg.distance_km * 1000) 0

/-- Driver state: shots still to run, current generator state, and the
success count accumulated so far. -/
structure ExpState where
  remaining : ℕ
  rng : ℕ
  successes : ℕ

/-- One shot of the step2 driver: with shots remaining, draw once per
channel; when both draws fall below the delivery probability both
halves arrive and the success count grows, otherwise the shot is lost.
Either way the generator advances by exactly two states. -/
inductive ShotStep (cfg : LossConfig) : ExpState → ExpState → Prop where
  | success : ∀ s : ExpState, 0 < s.remaining →
      (lcgFrac s.rng : ℝ) < channelDeliveryProb cfg →
      (lcgFrac (lcgNext s.rng) : ℝ) < channelDeliveryProb cfg →
      ShotStep cfg s ⟨s.remaining - 1, lcgNext (lcgNext s.rng), s.successes + 1⟩
  | lost : ∀ s : ExpState, 0 < s.remaining →
      ¬((lcgFrac s.rng : ℝ) < channelDeliveryProb cfg ∧
        (lcgFrac (lcgNext s.rng) : ℝ) < channelDeliveryProb cfg) →
      ShotStep cfg s ⟨s.remaining - 1, lcgNext (lcgNext s.rng), s.successes⟩

/-- Full run of the driver: shots execute one after the other until none
remain. -/
inductive RunsTo (cfg : LossConfig) : ExpState → ExpState → Prop where
  | done : ∀ s : ExpState, s.remaining = 0 → RunsTo cfg s s
  | step : ∀ s t u : ExpState, ShotStep cfg s t → RunsTo cfg t u → RunsTo cfg s u

/-- The driver state at the start of a seeded run. -/
def initState (cfg : LossConfig) (seed : ℕ) : ExpState :=
  ⟨cfg.shots, lcgNext seed, 0⟩

theorem shotStep_pos {cfg : LossConfig} {s t : ExpState} (h : ShotStep cfg s t) :
    0 < s.remaining := by
  cases h with
  | success hr _ _ => exact hr
  | lost hr _ => exact hr

theorem shotStep_deterministic {cfg : LossConfig} {s t1 t2 : ExpState}
    (h1 : ShotStep cfg s t1) (h2 : ShotStep cfg s t2) : t1 = t2 := by
  cases h1 with
  | success _ hA hB =>
    cases h2 with
    | success _ _ _ => rfl
    | lost _ hno => exact absurd ⟨hA, hB⟩ hno
  | lost _ hno =>
    cases h2 with
    | success _ hA hB => exact absurd ⟨hA, hB⟩ hno
    | lost _ _ => rfl

theorem runsTo_deterministic {cfg : LossConfig} {s r1 r2 : ExpState}
    (h1 : RunsTo cfg s r1) (h2 : RunsTo cfg s r2) : r1 = r2 := by
  induction h1 generalizing r2 with
  | done s h0 =>
    cases h2 with
    | done => rfl
    | step =>
      rename_i hst2 hrest2
      exact absurd (shotStep_pos hst2) (by simp [h0])
  | step s t u hst hrest ih =>
    cases h2 with
    | done =>
      rename_i h0
      exact absurd (shotStep_pos hst) (by simp [h0])
    | step =>
      rename_i t2 hst2 hrest2
      have ht := shotStep_deterministic hst hst2
      subst ht
      exact ih hrest2

/-- C7: two runs of the step2-style driver from the same configuration
and the same seed reach the same final state, success statistics
included: the seeded random stream is the only source of
non-determinism, every other input of a run being part of the
configuration. -/
theorem c7_same_seed_same_results (cfg : LossConfig) (seed : ℕ) (r1 r2 : ExpState)
    (h1 : RunsTo cfg (initState cfg seed) r1)
    (h2 : RunsTo cfg (initState cfg seed) r2) : r1 = r2 :=
  runsTo_deterministic h1 h2

/-- Witness for C7 at a concrete input: one shot at distance 0 with
loss coefficient 0.2 dB/km, seed 42.  Both channels deliver (the
delivery probability is 1), and two complete runs from that seed are
compared through the theorem. -/
theorem c7_same_seed_same_results_witness :
    (⟨0, lcgNext (lcgNext (lcgNext 42)), 1⟩ : ExpState)
      = ⟨0, lcgNext (lcgNext (lcgNext 42)), 1⟩ := by
  have hp : channelDeliveryProb ⟨1, 0, 2 / 10⟩ = 1 := by
    have h : (2 / 10 : ℚ) * (0 * 1000) / 1000 + 0 = 0 := by ring
    rw [channelDeliveryProb, transmitProb, h, tenPowNegDb_zero]
  have hfrac : ∀ m : ℕ, ((lcgFrac m : ℚ) : ℝ) < channelDeliveryProb ⟨1, 0, 2 / 10⟩ := by
    intro m
    rw [hp]
    exact_mod_cast lcgFrac_lt_one m
  have hrun : RunsTo ⟨1, 0, 2 / 10⟩ (initState ⟨1, 0, 2 / 10⟩ 42)
      ⟨0, lcgNext (lcgNext (lcgNext 42)), 1⟩ := by
    refine RunsTo.step _ _ _ (ShotStep.success _ (by norm_num [initState]) (hfrac _) (hfrac _)) ?_
    exact RunsTo.done _ rfl
  exact c7_same_seed_same_results ⟨1, 0, 2 / 10⟩ 42 _ _ hrun hrun
